import Mathlib

set_option maxHeartbeats 1000000

namespace Sensor

/-! Shallow embedding of `src/sensor.py` (a ThingsBoard virtual sensor:
telemetry loop, reconnect backoff, shared-attribute driven runtime
reconfiguration).  Pure methods become Lean functions; the stateful
loops are modelled by explicit state passing plus an event trace, and
the external transport, telemetry source and stop signal are supplied
as oracle environments. -/

/-- Dynamically typed values as produced by `json.loads` in the source:
integers, booleans, strings, null, and string-keyed objects.  (Floats
and arrays play no role in any property considered here and are left
out of the value universe.) -/
inductive PyValue where
  | VInt (n : Int)
  | VBool (b : Bool)
  | VStr (s : String)
  | VNull
  | VDict (entries : List (String × PyValue))

/-- Decimal digits (most significant first) to a natural number. -/
def digitsToNat (cs : List Char) : Nat :=
  cs.foldl (fun a c => a * 10 + (c.toNat - 48)) 0

/-- Python `int(s)` on a string: optional surrounding whitespace, an
optional single sign, then at least one decimal digit; anything else
raises `ValueError`, modelled as `none`. -/
def pyIntOfStr (s : String) : Option Int :=
  let t := ((s.data.dropWhile Char.isWhitespace).reverse.dropWhile Char.isWhitespace).reverse
  let signAndDigits : Bool × List Char :=
    match t with
    | c :: rest =>
      if c == '-' then (true, rest)
      else if c == '+' then (false, rest)
      else (false, t)
    | [] => (false, [])
  let ds := signAndDigits.2
  if ds.isEmpty || !ds.all Char.isDigit then none
  else if signAndDigits.1 then some (-(digitsToNat ds : Int))
  else some ((digitsToNat ds : Int))

/-- Python `int(x)` over the modelled value universe: ints unchanged,
bools mapped to 1 / 0, strings parsed, while `None` and dicts raise
`TypeError`, modelled as `none`. -/
def pyInt : PyValue → Option Int
  | .VInt n => some n
  | .VBool b => some (if b then 1 else 0)
  | .VStr s => pyIntOfStr s
  | .VNull => none
  | .VDict _ => none

/-- Python `bool(x)` generic truthiness: every nonzero number, non-empty
string and non-empty dict is truthy; `False`, `0`, `""`, `None` and
`{}` are falsy. -/
def pyBool : PyValue → Bool
  | .VInt n => n != 0
  | .VBool b => b
  | .VStr s => s != ""
  | .VNull => false
  | .VDict es => !es.isEmpty

mutual

/-- Python `repr(x)` for the modelled value universe (used by `str` on
non-string values): `True` / `False` / `None` keywords, decimal
integers, quoted strings, and `\x7b'k': v, ...\x7d` for dicts. -/
def pyRepr : PyValue → String
  | .VInt n => toString n
  | .VBool b => if b then "True" else "False"
  | .VStr s => "\x27" ++ s ++ "\x27"
  | .VNull => "None"
  | .VDict es => "\x7b" ++ pyReprEntries es ++ "\x7d"

/-- Comma-separated `'key': repr(value)` rendering of dict entries. -/
def pyReprEntries : List (String × PyValue) → String
  | [] => ""
  | [(k, v)] => "\x27" ++ k ++ "\x27: " ++ pyRepr v
  | (k, v) :: e :: rest =>
    "\x27" ++ k ++ "\x27: " ++ pyRepr v ++ ", " ++ pyReprEntries (e :: rest)

end

/-- Python `str(x)`: the identity on strings, `repr` otherwise.  It
never raises. -/
def pyStr : PyValue → String
  | .VStr s => s
  | v => pyRepr v

/-- The mutable state of the `VirtualSensor` object set up in
`__init__` (sensor.py lines 45-67): the attribute store (`interval`,
`enabled`, `firmware_version`), the connection flag, the stop event and
the reconnect attempt counter.  `reconnect_delay` and
`max_reconnect_attempts` are assigned once in `__init__` and never
reassigned, so they appear below as constants. -/
structure SensorState where
  interval : Int
  enabled : Bool
  firmware_version : String
  connected : Bool
  reconnect_attempts : Nat
  stopped : Bool
deriving Repr, DecidableEq

/-- The initial state from `__init__`: interval 5 s, enabled, firmware
"1.0", disconnected, zero reconnect attempts, stop event clear. -/
def initState : SensorState :=
  { interval := 5, enabled := true, firmware_version := "1.0",
    connected := false, reconnect_attempts := 0, stopped := false }

/-- Second half of `VirtualSensor._update_attributes` (sensor.py lines
133-146): the `enabled` and `firmware_version` handlers, neither of
which can raise (`bool()` and `str()` always succeed).  Returns the
updated state together with the list of firmware versions for which the
`_simulate_ota` hook (lines 150-154) fired; the hook fires exactly when
the stored firmware value actually changed, and reads the freshly
assigned version. -/
def update_enabled_firmware (s : SensorState) (attrs : List (String × PyValue)) :
    SensorState × List String :=
  let s1 :=
    match attrs.lookup "enabled" with
    | some v => { s with enabled := pyBool v }
    | none => s
  match attrs.lookup "firmware_version" with
  | some v =>
    let newV := pyStr v
    if s1.firmware_version = newV then ({ s1 with firmware_version := newV }, [])
    else ({ s1 with firmware_version := newV }, [newV])
  | none => (s1, [])

/-- `VirtualSensor._update_attributes` (sensor.py lines 124-148).  A
single `try/except (ValueError, TypeError)` wraps all three key
handlers; `int()` on the `interval` value is the only call in the block
that can raise, so a failing interval coercion leaves the whole state
unchanged (the `enabled` and `firmware_version` handlers further down
the block are never reached), while a successful coercion is clamped
below by `max(1, ...)`. -/
def update_attributes (s : SensorState) (attrs : List (String × PyValue)) :
    SensorState × List String :=
  match attrs.lookup "interval" with
  | some v =>
    match pyInt v with
    | none => (s, [])
    | some n => update_enabled_firmware { s with interval := max 1 n } attrs
  | none => update_enabled_firmware s attrs

/-- `VirtualSensor._on_message` (sensor.py lines 94-109), after the JSON
payload has been decoded.  A payload carrying a `"shared"` key has that
key's value forwarded to `_update_attributes`; otherwise a payload
carrying a `"response"` key is forwarded whole; every other shape
leaves the state unchanged.  A non-dict payload, or a non-dict
`"shared"` value, ends in a `TypeError` caught by the surrounding
`except` clauses, again leaving the state unchanged. -/
def on_message (s : SensorState) (payload : PyValue) : SensorState × List String :=
  match payload with
  | .VDict m =>
    match m.lookup "shared" with
    | some (.VDict sub) => update_attributes s sub
    | some _ => (s, [])
    | none =>
      match m.lookup "response" with
      | some _ => update_attributes s m
      | none => (s, [])
  | _ => (s, [])

/-- Constant `self.reconnect_delay = 5` from `__init__` (sensor.py line
65): the base backoff delay in seconds, also the fixed fallback wait of
the telemetry loop (line 223). -/
def reconnect_delay : Int := 5

/-- Constant `self.max_reconnect_attempts = 5` from `__init__`
(sensor.py line 66). -/
def max_reconnect_attempts : Nat := 5

/-- The backoff delay computed at sensor.py line 194:
`wait_time = self.reconnect_delay * (2 ** (self.reconnect_attempts - 1))`. -/
def nextDelay (n : Nat) : Int := reconnect_delay * 2 ^ (n - 1)

/-- Observable events of the connection / telemetry machinery: the stop
waits (with the attempt number, the requested duration and whether the
stop signal was observed during the wait), the transport
`client.reconnect()` calls, the exhaustion error log, the transport
`client.publish` calls with their reported outcome, the logged publish
failure, the logged publish skips, and the telemetry loop's own stop
waits. -/
inductive Event where
  | wait (n : Nat) (t : Int) (sawStop : Bool)
  | attempt (n : Nat)
  | logExhaustion
  | publish (payload : String) (ok : Bool)
  | logPublishFail (payload : String)
  | logSkipNotConnected
  | logSkipDisabled
  | loopWait (t : Int) (sawStop : Bool)
deriving Repr, DecidableEq

/-- Oracle environment for one reconnect cycle: whether the stop signal
fires during the wait preceding attempt `n`, and whether the transport
reconnect of attempt `n` succeeds (no exception from
`client.reconnect()` and a successful `_on_connect` callback). -/
structure RecEnv where
  stopFires : Nat → Bool
  succeeds : Nat → Bool

/-- The `while` loop of `VirtualSensor._reconnect_with_backoff`
(sensor.py lines 192-209), fuel-indexed: while not connected and the
attempt counter is below the maximum, increment the counter, wait the
exponential backoff delay or until the stop signal fires (breaking out
on stop), then call `client.reconnect()`.  A successful reconnect
returns at once, with the `_on_connect(rc=0)` callback effect folded in
(connected flag set, counter reset to 0, sensor.py lines 71-81); a
failure loops.  The top-level entry passes exactly enough fuel for the
remaining iterations. -/
def reconnectGo (env : RecEnv) : Nat → SensorState → SensorState × List Event
  | 0, s => (s, [])
  | fuel + 1, s =>
    if s.connected then (s, [])
    else if s.reconnect_attempts < max_reconnect_attempts then
      let n := s.reconnect_attempts + 1
      if s.stopped || env.stopFires n then
        ({ s with reconnect_attempts := n, stopped := true },
         [.wait n (nextDelay n) true])
      else if env.succeeds n then
        ({ s with reconnect_attempts := 0, connected := true },
         [.wait n (nextDelay n) false, .attempt n])
      else
        let r := reconnectGo env fuel { s with reconnect_attempts := n }
        (r.1, .wait n (nextDelay n) false :: .attempt n :: r.2)
    else (s, [])

/-- `VirtualSensor._reconnect_with_backoff` (sensor.py lines 190-212):
the backoff loop followed by the exhaustion check — when the attempt
counter has reached the maximum the exhaustion error is logged (the
early `return` on success bypasses this check, but a success has also
reset the counter to 0).  The function always returns normally: every
exception of the reconnect call is caught inside the loop. -/
def reconnect_with_backoff (env : RecEnv) (s : SensorState) :
    SensorState × List Event :=
  let r := reconnectGo env (max_reconnect_attempts - s.reconnect_attempts) s
  if max_reconnect_attempts ≤ r.1.reconnect_attempts then
    (r.1, r.2 ++ [.logExhaustion])
  else r

/-- Oracle environment for one telemetry publish: the serialized
measurement record obtained from `_generate_sensor_data` plus
`json.dumps` (the telemetry source is an external collaborator), and
the transport-reported outcome of `client.publish` (`rc ==
MQTT_ERR_SUCCESS`). -/
structure PubEnv where
  payload : String
  pubOk : Bool

/-- `VirtualSensor._publish_telemetry` (sensor.py lines 167-188): a
logged no-op when disconnected or disabled; otherwise exactly one
transport publish of one fresh record, whose failure is logged as a
warning and swallowed — no retry, no state change. -/
def publish_telemetry (env : PubEnv) (s : SensorState) : SensorState × List Event :=
  if !s.connected then (s, [.logSkipNotConnected])
  else if !s.enabled then (s, [.logSkipDisabled])
  else if env.pubOk then (s, [.publish env.payload true])
  else (s, [.publish env.payload false, .logPublishFail env.payload])

/-- Oracle environment for the telemetry loop, indexed by the iteration
number: the reconnect-cycle environment, the publish environment, and
whether the stop signal fires during the loop's own wait of that
iteration. -/
structure LoopEnv where
  recEnvAt : Nat → RecEnv
  pubEnvAt : Nat → PubEnv
  stopFiresAt : Nat → Bool

/-- One `stop_event.wait(t)` of the telemetry loop: if the stop signal
is already set or fires during the wait, the stop flag is observed
(recorded in the emitted event). -/
def waitStep (fires : Bool) (t : Int) (s : SensorState) : SensorState × Event :=
  if s.stopped || fires then ({ s with stopped := true }, .loopWait t true)
  else (s, .loopWait t false)

/-- One iteration body of the telemetry loop (sensor.py lines 219-229):
when disconnected, run the reconnect cycle; if still disconnected, wait
the fixed fallback delay and continue; if the reconnect succeeded, fall
through to the publish of the same iteration; when connected, publish
one record and wait the currently configured interval. -/
def loopIter (env : LoopEnv) (i : Nat) (s : SensorState) :
    SensorState × List Event :=
  if !s.connected then
    let r := reconnect_with_backoff (env.recEnvAt i) s
    if !r.1.connected then
      let w := waitStep (env.stopFiresAt i) reconnect_delay r.1
      (w.1, r.2 ++ [w.2])
    else
      let p := publish_telemetry (env.pubEnvAt i) r.1
      let w := waitStep (env.stopFiresAt i) p.1.interval p.1
      (w.1, r.2 ++ p.2 ++ [w.2])
  else
    let p := publish_telemetry (env.pubEnvAt i) s
    let w := waitStep (env.stopFiresAt i) p.1.interval p.1
    (w.1, p.2 ++ [w.2])

/-- `VirtualSensor._telemetry_loop` (sensor.py lines 214-231),
fuel-indexed on the number of iterations observed: the loop runs until
the stop signal is observed at the top of an iteration (`while not
self.stop_event.is_set()`), each iteration executing `loopIter`. -/
def telemetry_loop (env : LoopEnv) : Nat → Nat → SensorState → SensorState × List Event
  | 0, _, s => (s, [])
  | fuel + 1, i, s =>
    if s.stopped then (s, [])
    else
      let step := loopIter env i s
      let t := telemetry_loop env fuel (i + 1) step.1
      (t.1, step.2 ++ t.2)

/-- Does this event record an observation of the stop signal during a
wait? -/
def seesStop : Event → Bool
  | .wait _ _ b => b
  | .loopWait _ b => b
  | _ => false

/-- Is this event an outward action (a transport reconnect call or a
transport publish call)? -/
def isAction : Event → Bool
  | .attempt _ => true
  | .publish _ _ => true
  | _ => false

/-- Is this event a transport reconnect call? -/
def isAttemptEv : Event → Bool
  | .attempt _ => true
  | _ => false

/-- Is this event a transport publish call? -/
def isPublishEv : Event → Bool
  | .publish _ _ => true
  | _ => false

/-- The part of a trace strictly after the first observation of the
stop signal (empty when the stop signal is never observed). -/
def afterFirstStop : List Event → List Event
  | [] => []
  | e :: rest => if seesStop e then rest else afterFirstStop rest

/-! Helper lemmas about the connection machinery: which state fields
each operation can touch. -/

theorem rg_interval (env : RecEnv) (fuel : Nat) :
    ∀ s : SensorState, (reconnectGo env fuel s).1.interval = s.interval := by
  induction fuel with
  | zero => intro s; rfl
  | succ fuel ih =>
    intro s
    unfold reconnectGo
    dsimp only
    split
    · rfl
    · split
      · split
        · rfl
        · split
          · rfl
          · exact ih { s with reconnect_attempts := s.reconnect_attempts + 1 }
      · rfl

theorem rwb_interval (env : RecEnv) (s : SensorState) :
    (reconnect_with_backoff env s).1.interval = s.interval := by
  unfold reconnect_with_backoff
  dsimp only
  split <;> simp [rg_interval]

theorem pub_state_id (env : PubEnv) (s : SensorState) :
    (publish_telemetry env s).1 = s := by
  unfold publish_telemetry
  split
  · rfl
  · split
    · rfl
    · split <;> rfl

theorem waitStep_interval (fires : Bool) (t : Int) (s : SensorState) :
    (waitStep fires t s).1.interval = s.interval := by
  unfold waitStep; split <;> rfl

theorem loopIter_interval (env : LoopEnv) (i : Nat) (s : SensorState) :
    (loopIter env i s).1.interval = s.interval := by
  unfold loopIter
  dsimp only
  split
  · split
    · rw [waitStep_interval, rwb_interval]
    · rw [waitStep_interval, pub_state_id, rwb_interval]
  · rw [waitStep_interval, pub_state_id]

theorem loop_interval (env : LoopEnv) (fuel i : Nat) (s : SensorState) :
    (telemetry_loop env fuel i s).1.interval = s.interval := by
  induction fuel generalizing i s with
  | zero => rfl
  | succ fuel ih =>
    unfold telemetry_loop
    dsimp only
    split
    · rfl
    · rw [ih, loopIter_interval]

/-! Helper lemmas about the attribute store. -/

theorem uef_interval (s : SensorState) (attrs : List (String × PyValue)) :
    (update_enabled_firmware s attrs).1.interval = s.interval := by
  unfold update_enabled_firmware
  rcases attrs.lookup "enabled" with _ | v <;>
    rcases attrs.lookup "firmware_version" with _ | w <;> simp <;> split <;> rfl

theorem uef_firmware_eq (s : SensorState) (attrs : List (String × PyValue)) :
    ((update_enabled_firmware s attrs).1.firmware_version ≠ s.firmware_version →
      (update_enabled_firmware s attrs).2
        = [(update_enabled_firmware s attrs).1.firmware_version])
    ∧ ((update_enabled_firmware s attrs).1.firmware_version = s.firmware_version →
      (update_enabled_firmware s attrs).2 = []) := by
  unfold update_enabled_firmware
  rcases attrs.lookup "enabled" with _ | v <;>
    rcases attrs.lookup "firmware_version" with _ | w <;> simp
  · split
    next h => exact ⟨fun hne => absurd h.symm hne, fun _ => rfl⟩
    next h => exact ⟨fun _ => rfl, fun he => absurd he.symm h⟩
  · split
    next h => exact ⟨fun hne => absurd h.symm hne, fun _ => rfl⟩
    next h => exact ⟨fun _ => rfl, fun he => absurd he.symm h⟩

theorem uef_enabled (s : SensorState) (attrs : List (String × PyValue))
    (v : PyValue) (h : attrs.lookup "enabled" = some v) :
    (update_enabled_firmware s attrs).1.enabled = pyBool v := by
  unfold update_enabled_firmware
  rw [h]
  rcases attrs.lookup "firmware_version" with _ | w <;> simp <;> split <;> rfl

/-- C1.  The claim as stated fails: in `_update_attributes` a single
try/except wraps all three key handlers, so a non-numeric `interval`
aborts the whole update.  Applying an update whose interval value fails
integer coercion leaves the state wholly unchanged — the stored
interval keeps its prior value, but the `enabled` and
`firmware_version` keys of the same update are NOT applied, and no OTA
hook fires. -/
theorem c1_bad_interval_aborts_whole_update (s : SensorState)
    (attrs : List (String × PyValue)) (v : PyValue)
    (hl : attrs.lookup "interval" = some v) (hi : pyInt v = none) :
    update_attributes s attrs = (s, []) := by
  simp [update_attributes, hl, hi]

theorem c1_witness :
    update_attributes initState
      [("interval", PyValue.VStr "oops"), ("enabled", PyValue.VBool false)]
      = (initState, []) :=
  c1_bad_interval_aborts_whole_update initState _ (PyValue.VStr "oops") rfl rfl

/-- C1, counterexample to the claim as stated: the update
`\x7b"interval": "abc", "enabled": false, "firmware_version": "2.0"\x7d`
applied to the initial state leaves `enabled = true` and
`firmware_version = "1.0"` — the other keys of the same update are not
applied, contrary to the claimed per-key isolation. -/
theorem c1_counterexample :
    (update_attributes initState
      [("interval", PyValue.VStr "abc"), ("enabled", PyValue.VBool false),
       ("firmware_version", PyValue.VStr "2.0")]) = (initState, [])
    ∧ initState.enabled = true ∧ initState.firmware_version = "1.0"
    ∧ initState.interval = 5 := by
  refine ⟨?_, rfl, rfl, rfl⟩
  decide

/-- C3.  The stored interval never drops below 1: the initial value is
5; an update preserves `1 ≤ interval` (a failing coercion leaves it
unchanged, a successful one is clamped by `max(1, ...)`); a request
coercing to an integer below 1 stores exactly 1; and none of the other
operations (reconnect cycle, telemetry publish, telemetry loop) ever
writes the interval field. -/
theorem c3_interval_at_least_one :
    (∀ (s : SensorState) (attrs : List (String × PyValue)),
        1 ≤ s.interval → 1 ≤ (update_attributes s attrs).1.interval)
    ∧ 1 ≤ initState.interval
    ∧ (∀ (s : SensorState) (attrs : List (String × PyValue)) (v : PyValue) (n : Int),
        attrs.lookup "interval" = some v → pyInt v = some n → n < 1 →
        (update_attributes s attrs).1.interval = 1)
    ∧ (∀ (env : RecEnv) (s : SensorState),
        (reconnect_with_backoff env s).1.interval = s.interval)
    ∧ (∀ (env : PubEnv) (s : SensorState), (publish_telemetry env s).1 = s)
    ∧ (∀ (env : LoopEnv) (fuel i : Nat) (s : SensorState),
        (telemetry_loop env fuel i s).1.interval = s.interval) := by
  refine ⟨?_, by decide, ?_, rwb_interval, pub_state_id, loop_interval⟩
  · intro s attrs h
    unfold update_attributes
    rcases attrs.lookup "interval" with _ | v <;> dsimp only
    · rw [uef_interval]; exact h
    · rcases pyInt v with _ | n <;> dsimp only
      · exact h
      · rw [uef_interval]; exact le_max_left 1 n
  · intro s attrs v n hl hi hn
    simp [update_attributes, hl, hi, uef_interval]
    exact le_of_lt hn

theorem c3_witness :
    1 ≤ (update_attributes initState [("interval", PyValue.VInt 0)]).1.interval
    ∧ (update_attributes initState [("interval", PyValue.VInt 0)]).1.interval = 1 :=
  ⟨c3_interval_at_least_one.1 initState _ (by decide),
   c3_interval_at_least_one.2.2.1 initState _ (PyValue.VInt 0) 0 rfl rfl (by decide)⟩

/-- C9.  The OTA hook fires exactly once, with the freshly stored
version, on every update that actually changes the stored firmware
version, and does not fire at all when the stored version is unchanged
(re-applying the current version included). -/
theorem c9_ota_exactly_on_change (s : SensorState) (attrs : List (String × PyValue)) :
    ((update_attributes s attrs).1.firmware_version ≠ s.firmware_version →
      (update_attributes s attrs).2
        = [(update_attributes s attrs).1.firmware_version])
    ∧ ((update_attributes s attrs).1.firmware_version = s.firmware_version →
      (update_attributes s attrs).2 = []) := by
  unfold update_attributes
  rcases attrs.lookup "interval" with _ | v <;> dsimp only
  · exact uef_firmware_eq s attrs
  · rcases pyInt v with _ | n <;> dsimp only
    · simp
    · exact uef_firmware_eq { s with interval := max 1 n } attrs

theorem c9_witness :
    (update_attributes initState [("firmware_version", PyValue.VStr "1.1")]).2 = ["1.1"]
    ∧ (update_attributes { initState with firmware_version := "1.1" }
        [("firmware_version", PyValue.VStr "1.1")]).2 = [] :=
  ⟨(c9_ota_exactly_on_change initState _).1 (by decide),
   (c9_ota_exactly_on_change { initState with firmware_version := "1.1" } _).2 (by decide)⟩

/-- C10.  The claim as stated fails only because a non-coercible
`interval` value in the same update aborts before the `enabled` handler
runs.  Amended: provided the update is not aborted by a failing
interval coercion, the stored `enabled` flag is the generic Python
truthiness of the supplied value — every non-empty string (including
"false" and "0") enables the sensor, and only falsy values (`False`,
`0`, `""`, `None`, `\x7b\x7d`) disable it. -/
theorem c10_enabled_truthiness :
    (∀ (s : SensorState) (attrs : List (String × PyValue)) (v : PyValue),
        attrs.lookup "enabled" = some v →
        ((attrs.lookup "interval").all fun w => (pyInt w).isSome) = true →
        (update_attributes s attrs).1.enabled = pyBool v)
    ∧ (∀ str : String, str ≠ "" → pyBool (.VStr str) = true)
    ∧ pyBool (.VStr "false") = true
    ∧ pyBool (.VStr "0") = true
    ∧ pyBool (.VBool false) = false
    ∧ pyBool (.VInt 0) = false
    ∧ pyBool (.VStr "") = false
    ∧ pyBool .VNull = false
    ∧ pyBool (.VDict []) = false := by
  refine ⟨?_, ?_, by decide, by decide, by decide, by decide, by decide, by decide,
    by decide⟩
  · intro s attrs v hv hw
    unfold update_attributes
    rcases hl : attrs.lookup "interval" with _ | w <;> rw [hl] at hw <;> dsimp only
    · exact uef_enabled s attrs v hv
    · simp only [Option.all] at hw
      rcases hi : pyInt w with _ | n <;> dsimp only
      · rw [hi] at hw; simp at hw
      · exact uef_enabled { s with interval := max 1 n } attrs v hv
  · intro str h
    simp [pyBool, bne_iff_ne]
    exact h

theorem c10_witness :
    (update_attributes initState [("enabled", PyValue.VStr "false")]).1.enabled
      = pyBool (PyValue.VStr "false")
    ∧ pyBool (PyValue.VStr "x") = true :=
  ⟨c10_enabled_truthiness.1 initState _ (PyValue.VStr "false") rfl rfl,
   c10_enabled_truthiness.2.1 "x" (by decide)⟩

/-- C10, counterexample to the claim as stated: the update
`\x7b"interval": "abc", "enabled": false\x7d` supplies the falsy value
`False` under `enabled`, yet the stored flag stays `true`, because the
failing interval coercion aborts the update before the `enabled`
handler runs. -/
theorem c10_counterexample :
    (update_attributes initState
      [("interval", PyValue.VStr "abc"), ("enabled", PyValue.VBool false)]).1.enabled = true
    ∧ pyBool (PyValue.VBool false) = false := by
  constructor
  · decide
  · decide

/-- C4.  The claim as stated fails: a flat attribute-response mapping of
just the requested keys is forwarded only if it happens to contain the
literal key `"response"`, which the requested keys do not include.
Amended: a message carrying a `"shared"` sub-mapping has that
sub-mapping forwarded to the update path; a message is forwarded whole
exactly when it lacks `"shared"` but contains a key named `"response"`;
any other mapping — including a flat mapping of the requested keys — is
ignored. -/
theorem c4_message_dispatch :
    (∀ (s : SensorState) (m sub : List (String × PyValue)),
        m.lookup "shared" = some (.VDict sub) →
        on_message s (.VDict m) = update_attributes s sub)
    ∧ (∀ (s : SensorState) (m : List (String × PyValue)) (v : PyValue),
        m.lookup "shared" = none → m.lookup "response" = some v →
        on_message s (.VDict m) = update_attributes s m)
    ∧ (∀ (s : SensorState) (m : List (String × PyValue)),
        m.lookup "shared" = none → m.lookup "response" = none →
        on_message s (.VDict m) = (s, [])) := by
  refine ⟨?_, ?_, ?_⟩
  · intro s m sub h
    unfold on_message
    dsimp only
    rw [h]
  · intro s m v h1 h2
    unfold on_message
    dsimp only
    rw [h1]
    dsimp only
    rw [h2]
  · intro s m h1 h2
    unfold on_message
    dsimp only
    rw [h1]
    dsimp only
    rw [h2]

theorem c4_witness :
    on_message initState (.VDict [("shared", .VDict [("interval", PyValue.VInt 7)])])
      = update_attributes initState [("interval", PyValue.VInt 7)]
    ∧ on_message initState
        (.VDict [("response", PyValue.VBool true), ("interval", PyValue.VInt 9)])
      = update_attributes initState
          [("response", PyValue.VBool true), ("interval", PyValue.VInt 9)]
    ∧ on_message initState (.VDict [("other", PyValue.VNull)]) = (initState, []) :=
  ⟨c4_message_dispatch.1 initState _ _ rfl,
   c4_message_dispatch.2.1 initState _ (PyValue.VBool true) rfl rfl,
   c4_message_dispatch.2.2 initState _ rfl rfl⟩

/-- C4, counterexample to the claim as stated: the flat
attribute-response mapping `\x7b"interval": 10\x7d` of a requested key
is NOT forwarded to the update path — the stored interval stays 5,
whereas forwarding its contents would store 10. -/
theorem c4_counterexample :
    (on_message initState (.VDict [("interval", PyValue.VInt 10)])).1.interval = 5
    ∧ (update_attributes initState [("interval", PyValue.VInt 10)]).1.interval = 10 := by
  constructor
  · decide
  · decide

/-! Helper lemmas about the reconnect cycle's trace. -/

theorem afterFirstStop_append (a b : List Event) :
    afterFirstStop (a ++ b)
      = if a.any seesStop then afterFirstStop a ++ b else afterFirstStop b := by
  induction a with
  | nil => simp [afterFirstStop]
  | cons e r ih => by_cases h : seesStop e <;> simp [afterFirstStop, h, ih]

theorem afterFirstStop_singleton (e : Event) : afterFirstStop [e] = [] := by
  unfold afterFirstStop
  split <;> rfl

theorem all_log_notAction (evs : List Event)
    (h : evs.all (fun e => e == Event.logExhaustion) = true) :
    evs.all (fun e => !isAction e) = true := by
  simp only [List.all_eq_true, beq_iff_eq] at *
  intro e he
  rw [h e he]
  rfl

theorem rg_afterFirstStop (env : RecEnv) (fuel : Nat) :
    ∀ s : SensorState, afterFirstStop (reconnectGo env fuel s).2 = [] := by
  induction fuel with
  | zero => intro s; rfl
  | succ fuel ih =>
    intro s
    unfold reconnectGo
    dsimp only
    split
    · rfl
    · split
      · split
        · rfl
        · split
          · rfl
          · simp only [afterFirstStop, seesStop, if_neg]
            exact ih _
      · rfl

theorem rg_sawStop (env : RecEnv) (fuel : Nat) :
    ∀ s : SensorState,
      ((reconnectGo env fuel s).2.any seesStop = true →
        (reconnectGo env fuel s).1.stopped = true
        ∧ (reconnectGo env fuel s).1.connected = false)
      ∧ ((reconnectGo env fuel s).2.any seesStop = false →
        (reconnectGo env fuel s).1.stopped = s.stopped) := by
  induction fuel with
  | zero => intro s; exact ⟨fun h => by simp [reconnectGo] at h, fun _ => rfl⟩
  | succ fuel ih =>
    intro s
    unfold reconnectGo
    dsimp only
    split
    next hcon => exact ⟨fun h => by simp at h, fun _ => rfl⟩
    next hcon =>
      split
      · split
        next hstop =>
          refine ⟨fun _ => ⟨rfl, ?_⟩, fun h => by simp [seesStop] at h⟩
          simpa using hcon
        next hstop =>
          split
          next hsucc => exact ⟨fun h => by simp [seesStop] at h, fun _ => rfl⟩
          next hsucc =>
            constructor
            · intro h
              simp only [List.any_cons, seesStop, Bool.false_or] at h
              exact (ih { s with reconnect_attempts := s.reconnect_attempts + 1 }).1 h
            · intro h
              simp only [List.any_cons, seesStop, Bool.false_or] at h
              exact (ih { s with reconnect_attempts := s.reconnect_attempts + 1 }).2 h
      · exact ⟨fun h => by simp at h, fun _ => rfl⟩

theorem rg_stopped (env : RecEnv) (fuel : Nat) (s : SensorState)
    (h : s.stopped = true) :
    (reconnectGo env fuel s).1.stopped = true
    ∧ (reconnectGo env fuel s).2.all (fun e => !isAction e) = true := by
  cases fuel with
  | zero => exact ⟨h, rfl⟩
  | succ fuel =>
    unfold reconnectGo
    dsimp only
    split
    · exact ⟨h, rfl⟩
    · split
      · split
        next hstop => exact ⟨rfl, by simp [isAction]⟩
        next hstop => rw [h] at hstop; simp at hstop
      · exact ⟨h, rfl⟩

theorem rg_attempts (env : RecEnv) (fuel : Nat) :
    ∀ s : SensorState, s.reconnect_attempts ≤ max_reconnect_attempts →
      (reconnectGo env fuel s).1.reconnect_attempts ≤ max_reconnect_attempts
      ∧ ∀ m, Event.attempt m ∈ (reconnectGo env fuel s).2 →
          m ≤ max_reconnect_attempts := by
  induction fuel with
  | zero => intro s h; exact ⟨h, fun m hm => by simp [reconnectGo] at hm⟩
  | succ fuel ih =>
    intro s h
    unfold reconnectGo
    dsimp only
    split
    · exact ⟨h, fun m hm => by simp at hm⟩
    · split
      next hlt =>
        split
        · refine ⟨hlt, fun m hm => ?_⟩
          simp [seesStop] at hm
        · split
          next hsucc =>
            refine ⟨by simp [max_reconnect_attempts], fun m hm => ?_⟩
            simp at hm
            omega
          next hsucc =>
            have := ih { s with reconnect_attempts := s.reconnect_attempts + 1 } hlt
            refine ⟨this.1, fun m hm => ?_⟩
            simp only [List.mem_cons] at hm
            rcases hm with hm | hm | hm
            · simp at hm
            · cases hm; omega
            · exact this.2 m hm
      · exact ⟨h, fun m hm => by simp at hm⟩

theorem rg_wait_delay (env : RecEnv) (fuel : Nat) :
    ∀ (s : SensorState) (n : Nat) (t : Int) (b : Bool),
      Event.wait n t b ∈ (reconnectGo env fuel s).2 → t = nextDelay n := by
  induction fuel with
  | zero => intro s n t b hm; simp [reconnectGo] at hm
  | succ fuel ih =>
    intro s n t b hm
    unfold reconnectGo at hm
    dsimp only at hm
    split at hm
    · simp at hm
    · split at hm
      · split at hm
        · simp at hm
          exact hm.2.1.symm ▸ hm.1 ▸ rfl
        · split at hm
          · simp at hm
            rcases hm with ⟨h1, h2, _⟩
            exact h2.symm ▸ h1 ▸ rfl
          · simp only [List.mem_cons] at hm
            rcases hm with hm | hm | hm
            · rw [Event.wait.injEq] at hm
              exact hm.2.1.symm ▸ hm.1 ▸ rfl
            · simp at hm
            · exact ih _ n t b hm
      · simp at hm

/-! Lifting the reconnect-loop lemmas to `reconnect_with_backoff`. -/

theorem rwb_afterFirstStop (env : RecEnv) (s : SensorState) :
    (afterFirstStop (reconnect_with_backoff env s).2).all
      (fun e => e == Event.logExhaustion) = true := by
  unfold reconnect_with_backoff
  dsimp only
  split
  · rw [afterFirstStop_append]
    split
    · rw [rg_afterFirstStop]
      rfl
    · rw [afterFirstStop_singleton]
      rfl
  · rw [rg_afterFirstStop]
    rfl

theorem rwb_sawStop (env : RecEnv) (s : SensorState) :
    ((reconnect_with_backoff env s).2.any seesStop = true →
      (reconnect_with_backoff env s).1.stopped = true
      ∧ (reconnect_with_backoff env s).1.connected = false)
    ∧ ((reconnect_with_backoff env s).2.any seesStop = false →
      (reconnect_with_backoff env s).1.stopped = s.stopped) := by
  unfold reconnect_with_backoff
  dsimp only
  split
  · constructor
    · intro h
      simp only [List.any_append, List.any_cons, List.any_nil, seesStop,
        Bool.or_false] at h
      exact (rg_sawStop env _ s).1 h
    · intro h
      simp only [List.any_append, List.any_cons, List.any_nil, seesStop,
        Bool.or_false] at h
      exact (rg_sawStop env _ s).2 h
  · exact rg_sawStop env _ s

theorem rwb_stopped (env : RecEnv) (s : SensorState) (h : s.stopped = true) :
    (reconnect_with_backoff env s).1.stopped = true
    ∧ (reconnect_with_backoff env s).2.all (fun e => !isAction e) = true := by
  unfold reconnect_with_backoff
  dsimp only
  have hg := rg_stopped env (max_reconnect_attempts - s.reconnect_attempts) s h
  split
  · exact ⟨hg.1, by rw [List.all_append, hg.2]; rfl⟩
  · exact hg

theorem rwb_exhausted (env : RecEnv) (s : SensorState)
    (h : max_reconnect_attempts ≤ s.reconnect_attempts) :
    reconnect_with_backoff env s = (s, [Event.logExhaustion]) := by
  unfold reconnect_with_backoff
  rw [Nat.sub_eq_zero_of_le h]
  dsimp only [reconnectGo]
  rw [if_pos h]
  rfl

/-! Helper lemmas about the telemetry publish and the loop's waits. -/

theorem pub_no_seesStop (env : PubEnv) (s : SensorState) :
    (publish_telemetry env s).2.any seesStop = false := by
  unfold publish_telemetry
  split
  · rfl
  · split
    · rfl
    · split <;> rfl

theorem waitStep_fst (fires : Bool) (t : Int) (s : SensorState) :
    (waitStep fires t s).1 = { s with stopped := s.stopped || fires } := by
  unfold waitStep
  split
  next h => simp [h]
  next h =>
    simp at h
    cases s
    simp_all

theorem waitStep_snd (fires : Bool) (t : Int) (s : SensorState) :
    (waitStep fires t s).2 = Event.loopWait t (s.stopped || fires) := by
  unfold waitStep
  split
  next h => simp [h]
  next h => simp at h; simp [h]

theorem loop_stopped (env : LoopEnv) (fuel i : Nat) (s : SensorState)
    (h : s.stopped = true) : telemetry_loop env fuel i s = (s, []) := by
  cases fuel with
  | zero => rfl
  | succ fuel =>
    unfold telemetry_loop
    rw [if_pos h]

theorem loopIter_stop (env : LoopEnv) (i : Nat) (s : SensorState) :
    ((loopIter env i s).2.any seesStop = true → (loopIter env i s).1.stopped = true)
    ∧ (afterFirstStop (loopIter env i s).2).all (fun e => !isAction e) = true := by
  unfold loopIter
  dsimp only
  split
  next hnc =>
    split
    next hnc2 =>
      rw [waitStep_fst, waitStep_snd]
      constructor
      · intro h
        simp only [List.any_append, List.any_cons, List.any_nil, seesStop,
          Bool.or_false] at h
        rcases Bool.or_eq_true_iff.1 h with h | h
        · have := ((rwb_sawStop (env.recEnvAt i) s).1 h).1
          simp [this]
        · exact h
      · rw [afterFirstStop_append]
        split
        · rw [List.all_append]
          rw [all_log_notAction _ (rwb_afterFirstStop (env.recEnvAt i) s)]
          rfl
        · rw [afterFirstStop_singleton]
          rfl
    next hnc2 =>
      have hB : (reconnect_with_backoff (env.recEnvAt i) s).1.connected = true := by
        simpa using hnc2
      have hany : (reconnect_with_backoff (env.recEnvAt i) s).2.any seesStop = false := by
        cases hx : (reconnect_with_backoff (env.recEnvAt i) s).2.any seesStop
        · rfl
        · have := ((rwb_sawStop (env.recEnvAt i) s).1 hx).2
          rw [hB] at this
          exact this
      rw [waitStep_fst, waitStep_snd, pub_state_id]
      constructor
      · intro h
        simp only [List.any_append, List.any_cons, List.any_nil, seesStop,
          Bool.or_false, hany, pub_no_seesStop, Bool.false_or] at h
        exact h
      · rw [List.append_assoc, afterFirstStop_append, if_neg (by simp [hany])]
        rw [afterFirstStop_append, if_neg (by simp [pub_no_seesStop])]
        rw [afterFirstStop_singleton]
        rfl
  next hnc =>
    rw [waitStep_fst, waitStep_snd, pub_state_id]
    constructor
    · intro h
      simp only [List.any_append, List.any_cons, List.any_nil, seesStop,
        Bool.or_false, pub_no_seesStop, Bool.false_or] at h
      exact h
    · rw [afterFirstStop_append, if_neg (by simp [pub_no_seesStop])]
      rw [afterFirstStop_singleton]
      rfl

/-- C5.  Observing the stop signal during a reconnect backoff wait
aborts the cycle at once: everything after the first stop observation
in a reconnect cycle's trace is at most the exhaustion log — in
particular the pending transport reconnect call of that attempt never
happens.  And across the whole telemetry loop, no outward action (no
transport reconnect call and no transport publish) ever follows the
first observation of the stop signal. -/
theorem c5_no_action_after_stop :
    (∀ (env : RecEnv) (s : SensorState),
        (afterFirstStop (reconnect_with_backoff env s).2).all
          (fun e => e == Event.logExhaustion) = true)
    ∧ (∀ (env : LoopEnv) (fuel i : Nat) (s : SensorState),
        (afterFirstStop (telemetry_loop env fuel i s).2).all
          (fun e => !isAction e) = true) := by
  refine ⟨rwb_afterFirstStop, ?_⟩
  intro env fuel
  induction fuel with
  | zero => intro i s; rfl
  | succ fuel ih =>
    intro i s
    unfold telemetry_loop
    dsimp only
    split
    · rfl
    · rw [afterFirstStop_append]
      split
      next hany =>
        rw [loop_stopped env fuel (i + 1) _ ((loopIter_stop env i s).1 hany)]
        dsimp only
        rw [List.append_nil]
        exact (loopIter_stop env i s).2
      next hany =>
        exact ih (i + 1) _

/-- C2.  The claim as stated fails: after the reconnect cycle has
exhausted its maximum attempts, the attempt counter (which is reset
only by a successful connection) stays at the maximum, so every later
invocation of the cycle returns immediately — re-logging exhaustion —
without a single new transport reconnect call.  Amended: exhaustion is
reported and control returns to the caller without throwing, and the
telemetry loop does re-invoke the reconnect routine on its cadence, but
those re-invocations make no transport reconnect attempts (and, the
sensor staying disconnected, no publish ever happens either). -/
theorem c2_exhaustion_never_retries :
    (∀ (env : RecEnv) (s : SensorState),
        max_reconnect_attempts ≤ s.reconnect_attempts →
        reconnect_with_backoff env s = (s, [Event.logExhaustion]))
    ∧ (∀ (env : LoopEnv) (fuel i : Nat) (s : SensorState),
        max_reconnect_attempts ≤ s.reconnect_attempts → s.connected = false →
        (telemetry_loop env fuel i s).2.filter isAttemptEv = []
        ∧ (telemetry_loop env fuel i s).2.filter isPublishEv = []) := by
  refine ⟨rwb_exhausted, ?_⟩
  intro env fuel
  induction fuel with
  | zero => intro i s h hc; exact ⟨rfl, rfl⟩
  | succ fuel ih =>
    intro i s h hc
    unfold telemetry_loop
    dsimp only
    split
    · exact ⟨rfl, rfl⟩
    · have hstep : loopIter env i s
          = ({ s with stopped := s.stopped || env.stopFiresAt i },
             [Event.logExhaustion,
              Event.loopWait reconnect_delay (s.stopped || env.stopFiresAt i)]) := by
        unfold loopIter
        rw [rwb_exhausted (env.recEnvAt i) s h]
        dsimp only
        rw [if_pos (by rw [hc]; rfl), if_pos (by rw [hc]; rfl)]
        rw [waitStep_fst, waitStep_snd]
        rfl
      rw [hstep]
      dsimp only
      have hrest := ih (i + 1) { s with stopped := s.stopped || env.stopFiresAt i } h hc
      constructor
      · rw [List.filter_append, hrest.1]
        rfl
      · rw [List.filter_append, hrest.2]
        rfl

theorem c2_witness :
    reconnect_with_backoff ⟨fun _ => true, fun _ => true⟩
        { initState with reconnect_attempts := 5 }
      = ({ initState with reconnect_attempts := 5 }, [Event.logExhaustion]) :=
  c2_exhaustion_never_retries.1 _ _ (by decide)

/-- C2, counterexample to the claim as stated: starting disconnected
with a transport that always fails, the first reconnect cycle makes 5
transport attempts and leaves the counter at 5; the next invocation of
the cycle — the retry of the telemetry loop's next iteration — makes 0
transport attempts and merely re-logs exhaustion, so new transport
reconnect attempts are NOT kept being made. -/
theorem c2_counterexample :
    ((reconnect_with_backoff ⟨fun _ => false, fun _ => false⟩ initState).2.filter
        isAttemptEv).length = 5
    ∧ (reconnect_with_backoff ⟨fun _ => false, fun _ => false⟩
        initState).1.reconnect_attempts = 5
    ∧ (reconnect_with_backoff ⟨fun _ => false, fun _ => false⟩
        initState).1.connected = false
    ∧ (reconnect_with_backoff ⟨fun _ => false, fun _ => false⟩
        (reconnect_with_backoff ⟨fun _ => false, fun _ => false⟩ initState).1).2
        = [Event.logExhaustion] := by
  refine ⟨?_, ?_, ?_, ?_⟩ <;> decide

/-- C6.  A transport reconnect attempt is started only while the attempt
counter is strictly below the maximum of 5: the counter never exceeds
the maximum, every attempt in a cycle's trace is numbered at most 5,
and from a fresh disconnected state with 5 consecutive failures the
attempts are exactly 1..5 with no 6th. -/
theorem c6_attempts_bounded :
    (∀ (env : RecEnv) (s : SensorState),
        s.reconnect_attempts ≤ max_reconnect_attempts →
        (reconnect_with_backoff env s).1.reconnect_attempts ≤ max_reconnect_attempts
        ∧ ∀ m, Event.attempt m ∈ (reconnect_with_backoff env s).2 →
            m ≤ max_reconnect_attempts)
    ∧ ((reconnect_with_backoff ⟨fun _ => false, fun _ => false⟩ initState).2.filter
          isAttemptEv
        = [Event.attempt 1, Event.attempt 2, Event.attempt 3, Event.attempt 4,
           Event.attempt 5]
        ∧ Event.attempt 6
            ∉ (reconnect_with_backoff ⟨fun _ => false, fun _ => false⟩ initState).2) := by
  refine ⟨?_, by decide⟩
  intro env s h
  have hg := rg_attempts env (max_reconnect_attempts - s.reconnect_attempts) s h
  unfold reconnect_with_backoff
  dsimp only
  split
  · refine ⟨hg.1, fun m hm => ?_⟩
    simp only [List.mem_append, List.mem_singleton] at hm
    rcases hm with hm | hm
    · exact hg.2 m hm
    · simp at hm
  · exact hg

theorem c6_witness :
    (reconnect_with_backoff ⟨fun _ => false, fun _ => false⟩
        { initState with reconnect_attempts := 3 }).1.reconnect_attempts
      ≤ max_reconnect_attempts :=
  (c6_attempts_bounded.1 _ _ (by decide)).1

/-- C7.  Every backoff wait before attempt n in a reconnect cycle's
trace lasts exactly `baseDelay * 2 ^ (n - 1)` seconds with a base delay
of 5 seconds — no jitter, no cap — and the delay is strictly increasing
in the attempt number (for n ≥ 1). -/
theorem c7_backoff_delays :
    (∀ (env : RecEnv) (s : SensorState) (n : Nat) (t : Int) (b : Bool),
        Event.wait n t b ∈ (reconnect_with_backoff env s).2 → t = nextDelay n)
    ∧ (∀ n : Nat, nextDelay n = reconnect_delay * 2 ^ (n - 1))
    ∧ (∀ n : Nat, 1 ≤ n → nextDelay n < nextDelay (n + 1))
    ∧ reconnect_delay = 5 := by
  refine ⟨?_, fun n => rfl, ?_, rfl⟩
  · intro env s n t b hm
    unfold reconnect_with_backoff at hm
    dsimp only at hm
    split at hm
    · simp only [List.mem_append, List.mem_singleton] at hm
      rcases hm with hm | hm
      · exact rg_wait_delay env _ s n t b hm
      · simp at hm
    · exact rg_wait_delay env _ s n t b hm
  · intro n h
    unfold nextDelay reconnect_delay
    have hn : n - 1 + 1 = n := Nat.succ_pred_eq_of_pos h
    have hp : (0 : Int) < 2 ^ (n - 1) := pow_pos (by norm_num) _
    calc (5 : Int) * 2 ^ (n - 1) < 5 * (2 ^ (n - 1) * 2) := by nlinarith
      _ = 5 * 2 ^ (n - 1 + 1) := by rw [pow_succ]
      _ = 5 * 2 ^ n := by rw [hn]
      _ = 5 * 2 ^ (n + 1 - 1) := by simp

theorem c7_witness :
    (10 : Int) = nextDelay 2 ∧ nextDelay 1 < nextDelay 2 :=
  ⟨c7_backoff_delays.1 ⟨fun _ => false, fun _ => false⟩ initState 2 10 false (by decide),
   c7_backoff_delays.2.2.1 1 (by decide)⟩

/-- C8.  The telemetry publish never changes the state; it performs no
transport publish when disconnected or disabled, and performs exactly
one transport publish of the one fresh record when connected and
enabled — also when the transport reports failure, which is merely
logged, with no retry of that record. -/
theorem c8_publish_contract :
    ∀ (env : PubEnv) (s : SensorState),
      (publish_telemetry env s).1 = s
      ∧ ((publish_telemetry env s).2.filter isPublishEv).length
          = (if s.connected && s.enabled then 1 else 0)
      ∧ (s.connected = true → s.enabled = true → env.pubOk = false →
          (publish_telemetry env s).2
            = [Event.publish env.payload false, Event.logPublishFail env.payload]) := by
  intro env s
  refine ⟨pub_state_id env s, ?_, ?_⟩
  · unfold publish_telemetry
    split
    next h =>
      simp only [Bool.not_eq_true'] at h
      simp [h, isPublishEv]
    next h =>
      simp only [Bool.not_eq_true', Bool.not_eq_false] at h
      split
      next h2 =>
        simp only [Bool.not_eq_true'] at h2
        simp [h, h2, isPublishEv]
      next h2 =>
        simp only [Bool.not_eq_true', Bool.not_eq_false] at h2
        split <;> simp [h, h2, isPublishEv]
  · intro hc he hok
    simp [publish_telemetry, hc, he, hok]

theorem c8_witness :
    (publish_telemetry ⟨"rec", false⟩ { initState with connected := true }).2
      = [Event.publish "rec" false, Event.logPublishFail "rec"] :=
  (c8_publish_contract ⟨"rec", false⟩ { initState with connected := true }).2.2 rfl rfl rfl

end Sensor
